import Mathlib

/-!
Shallow embedding of the connection registry and broadcast scheduler of
src/webgui/server.py (ERM-CE WebGUI server).

The registry is modelled exactly as in the source: a Python list of
connection handles, with connect appending, disconnect removing the first
occurrence if present, and broadcast iterating over the list, sending to
each connection whose client_state is CONNECTED, collecting failed or
non-connected connections, and disconnecting them after the pass.

Connections are an abstract type with decidable equality (Python object
identity of the WebSocket handles).  The per-connection transport state
and the outcome of a send attempt are external facts, passed in as
functions from connections to values, exactly as the source reads
connection.client_state and observes send_json succeed or raise.
-/

/-- The starlette WebSocketState values inspected at server.py line 52. -/
inductive WebSocketState where
  | connecting
  | connected
  | disconnected
deriving DecidableEq, Repr

/-- ConnectionManager state (server.py lines 33 to 35): the list
active_connections of registered WebSocket handles, in insertion order. -/
structure ConnectionManager (α : Type) where
  active_connections : List α
deriving DecidableEq, Repr

/-- Registration step of ConnectionManager.connect (server.py line 39):
self.active_connections.append(websocket).  The preceding
websocket.accept() is an external transport handshake with no effect on
the registry, so it is not part of the registry model. -/
def ConnectionManager.connect {α : Type} (m : ConnectionManager α) (websocket : α) :
    ConnectionManager α :=
  ⟨m.active_connections ++ [websocket]⟩

/-- ConnectionManager.disconnect (server.py lines 42 to 45): remove the
websocket from active_connections if present, otherwise do nothing.
Python list.remove deletes the first occurrence, as List.erase does. -/
def ConnectionManager.disconnect {α : Type} [DecidableEq α] (m : ConnectionManager α)
    (websocket : α) : ConnectionManager α :=
  if websocket ∈ m.active_connections then ⟨m.active_connections.erase websocket⟩ else m

/-- len(self.active_connections), the count logged by the manager. -/
def ConnectionManager.count {α : Type} (m : ConnectionManager α) : Nat :=
  m.active_connections.length

/-- Outcome of the fan-out loop of ConnectionManager.broadcast
(server.py lines 49 to 58), before the cleanup phase:
attempted lists the connections on which send_json was invoked,
delivered those for which it returned without raising, and
disconnected the list built by the loop (failed sends and connections
whose client_state was not CONNECTED), each in visit order. -/
structure BroadcastPass (α : Type) where
  attempted : List α
  delivered : List α
  disconnected : List α
deriving Repr

/-- The for-loop of ConnectionManager.broadcast (server.py lines 50 to 58)
over a list of connections.  client_state gives each connection's
transport state; sendFails c is true when send_json on c raises. -/
def broadcastLoop {α : Type} (client_state : α → WebSocketState) (sendFails : α → Bool) :
    List α → BroadcastPass α
  | [] => ⟨[], [], []⟩
  | connection :: rest =>
    let r := broadcastLoop client_state sendFails rest
    if client_state connection = WebSocketState.connected then
      if sendFails connection then
        ⟨connection :: r.attempted, r.delivered, connection :: r.disconnected⟩
      else
        ⟨connection :: r.attempted, connection :: r.delivered, r.disconnected⟩
    else
      ⟨r.attempted, r.delivered, connection :: r.disconnected⟩

/-- Result of one full ConnectionManager.broadcast call (server.py lines
47 to 62): the fan-out pass followed by the cleanup phase that calls
self.disconnect on every collected connection. -/
structure BroadcastResult (α : Type) where
  pass : BroadcastPass α
  manager : ConnectionManager α
deriving Repr

/-- ConnectionManager.broadcast (server.py lines 47 to 62): run the
fan-out loop over active_connections, then disconnect every connection
collected in the disconnected list. -/
def ConnectionManager.broadcast {α : Type} [DecidableEq α] (m : ConnectionManager α)
    (client_state : α → WebSocketState) (sendFails : α → Bool) : BroadcastResult α :=
  let p := broadcastLoop client_state sendFails m.active_connections
  ⟨p, p.disconnected.foldl (fun acc conn => acc.disconnect conn) m⟩

/-!
Metrics collection (server.py lines 67 to 178).  The dicts built by
get_system_info and get_bot_info are modelled as JSON-like values.  The
bodies of the try blocks read external state (psutil for the host, the
Discord bot object for the application); whether such a read raises is
an external fact, so each try body is passed in as an Except value: ok
with the dict the body would return, or error when some read inside it
raised.  The except branches and the bot_instance None check, which are
the code the error-handling claims are about, are modelled concretely
from the source.
-/

/-- JSON-like values, enough for the dicts server.py builds. -/
inductive JVal where
  | str (s : String)
  | num (n : Int)
  | obj (fields : List (String × JVal))
deriving Repr, BEq

/-- Field lookup in a JSON object value; none on non-objects. -/
def JVal.lookup : JVal → String → Option JVal
  | .obj fields, k => fields.lookup k
  | .str _, _ => none
  | .num _, _ => none

/-- get_system_info (server.py lines 67 to 147).  now is the value
datetime.now().isoformat() would produce in the except branch; body is
the try block (lines 69 to 141), which either returns the full metrics
dict or raises.  On an exception the function returns the error dict of
lines 144 to 147 instead of propagating. -/
def get_system_info (now : String) (body : Except String JVal) : JVal :=
  match body with
  | .ok v => v
  | .error _ =>
    .obj [("error", .str "Internal error while collecting system information"),
          ("timestamp", .str now)]

/-- get_bot_info (server.py lines 150 to 178).  bot_instance is the
module-level bot reference (None when no bot is bound); body is the try
block (lines 158 to 172) reading the bot object, which either returns
the metrics dict or raises.  With no bot the not_connected dict of
lines 153 to 156 is returned before the try block; on an exception the
error dict of lines 175 to 178 is returned instead of propagating. -/
def get_bot_info {β : Type} (bot_instance : Option β) (body : β → Except String JVal) : JVal :=
  match bot_instance with
  | none =>
    .obj [("status", .str "not_connected"),
          ("message", .str "Bot instance not initialized")]
  | some bot =>
    match body bot with
    | .ok v => v
    | .error _ =>
      .obj [("status", .str "error"),
            ("error", .str "Internal error while collecting bot information")]

/-- The message dict built by broadcast_stats (server.py lines 253 to
257) and sent to every client of a tick: a type tag plus the system and
bot metric groups. -/
structure StatsMessage where
  type : String
  system : JVal
  bot : JVal
deriving Repr, BEq

/-- Result of one iteration of the broadcast_stats loop: how many times
each collection function ran during the tick, the (connection, message)
pairs delivered, and the registry afterwards. -/
structure TickResult (α : Type) where
  system_info_calls : Nat
  bot_info_calls : Nat
  sent : List (α × StatsMessage)
  manager : ConnectionManager α

/-- One iteration of the while loop of broadcast_stats (server.py lines
250 to 262): if manager.active_connections is empty (falsy) do nothing,
otherwise build the stats dict once, calling get_system_info and
get_bot_info once each, and broadcast that one dict to every client. -/
def broadcast_stats_tick {α β : Type} [DecidableEq α]
    (client_state : α → WebSocketState) (sendFails : α → Bool)
    (now : String) (sysBody : Except String JVal)
    (bot_instance : Option β) (botBody : β → Except String JVal)
    (m : ConnectionManager α) : TickResult α :=
  if m.active_connections = [] then
    ⟨0, 0, [], m⟩
  else
    let stats : StatsMessage :=
      ⟨"update", get_system_info now sysBody, get_bot_info bot_instance botBody⟩
    let r := m.broadcast client_state sendFails
    ⟨1, 1, r.pass.delivered.map (fun c => (c, stats)), r.manager⟩

/-!
Interleaving model for the session lifecycle (server.py lines 216 to 245)
running concurrently with the broadcast task (lines 248 to 262) on one
asyncio event loop.  Control moves between coroutines only at await
points.  In websocket_endpoint there is no await between the append
inside manager.connect (line 39) and the initiation of the initial
send_json (line 223): get_system_info and get_bot_info are synchronous
calls.  Frames on one websocket are delivered in the order their sends
are initiated, and a connection whose send raises delivers nothing, so
registration plus the initial send form one atomic step with a success
flag: on failure the except handler (lines 243 to 245) calls
manager.disconnect before the coroutine yields again.  A broadcast tick
is one step that runs ConnectionManager.broadcast and delivers the
update message to the connections the pass reports as delivered.
-/

/-- Observable world state for the interleaving model: the shared
ConnectionManager plus, for each connection, the sequence of message
type tags ("initial" or "update") it has received so far. -/
structure SessionWorld (α : Type) where
  manager : ConnectionManager α
  received : α → List String

/-- Atomic steps of the event loop, at await granularity:
open_session c ok is the registration plus immediate initial send of
websocket_endpoint (initial send failing when ok is false, in which case
the except handler deregisters c in the same segment); tick is one
broadcast_stats fan-out with the per-connection transport states and
send outcomes of that instant; close_session is the deregistration run
by a session on disconnect or error. -/
inductive SessionStep (α : Type) where
  | open_session (c : α) (ok : Bool)
  | tick (client_state : α → WebSocketState) (sendFails : α → Bool)
  | close_session (c : α)

/-- Effect of one atomic step on the world. -/
def sessionStepRun {α : Type} [DecidableEq α] (w : SessionWorld α) :
    SessionStep α → SessionWorld α
  | .open_session c true =>
    ⟨w.manager.connect c,
     fun d => if d = c then w.received d ++ ["initial"] else w.received d⟩
  | .open_session c false =>
    ⟨(w.manager.connect c).disconnect c, w.received⟩
  | .tick client_state sendFails =>
    let r := w.manager.broadcast client_state sendFails
    ⟨r.manager,
     fun d => if d ∈ r.pass.delivered then w.received d ++ ["update"] else w.received d⟩
  | .close_session c =>
    ⟨w.manager.disconnect c, w.received⟩

/-- Run of the event loop from server start: empty registry, no
messages received by anyone. -/
def sessionRun {α : Type} [DecidableEq α] (steps : List (SessionStep α)) : SessionWorld α :=
  steps.foldl sessionStepRun ⟨⟨[]⟩, fun _ => []⟩

/-!
Characterization lemmas for the broadcast pass and cleanup phase.
-/

theorem broadcastLoop_attempted {α : Type} (client_state : α → WebSocketState)
    (sendFails : α → Bool) (l : List α) :
    (broadcastLoop client_state sendFails l).attempted
      = l.filter (fun c => decide (client_state c = WebSocketState.connected)) := by
  induction l with
  | nil => rfl
  | cons a t ih =>
    by_cases hs : client_state a = WebSocketState.connected
    · by_cases hf : sendFails a = true <;>
        simp [broadcastLoop, hs, hf, List.filter_cons, ih]
    · simp [broadcastLoop, hs, List.filter_cons, ih]

theorem broadcastLoop_delivered {α : Type} (client_state : α → WebSocketState)
    (sendFails : α → Bool) (l : List α) :
    (broadcastLoop client_state sendFails l).delivered
      = l.filter (fun c => decide (client_state c = WebSocketState.connected) && !sendFails c) := by
  induction l with
  | nil => rfl
  | cons a t ih =>
    by_cases hs : client_state a = WebSocketState.connected
    · by_cases hf : sendFails a = true <;>
        simp [broadcastLoop, hs, hf, List.filter_cons, ih]
    · simp [broadcastLoop, hs, List.filter_cons, ih]

theorem broadcastLoop_disconnected {α : Type} (client_state : α → WebSocketState)
    (sendFails : α → Bool) (l : List α) :
    (broadcastLoop client_state sendFails l).disconnected
      = l.filter
          (fun c => !(decide (client_state c = WebSocketState.connected) && !sendFails c)) := by
  induction l with
  | nil => rfl
  | cons a t ih =>
    by_cases hs : client_state a = WebSocketState.connected
    · by_cases hf : sendFails a = true <;>
        simp [broadcastLoop, hs, hf, List.filter_cons, ih]
    · simp [broadcastLoop, hs, List.filter_cons, ih]

theorem ConnectionManager.disconnect_eq_erase {α : Type} [DecidableEq α]
    (m : ConnectionManager α) (c : α) :
    m.disconnect c = ⟨m.active_connections.erase c⟩ := by
  unfold ConnectionManager.disconnect
  split
  · rfl
  · next h => rw [List.erase_of_not_mem h]

theorem foldl_disconnect_eq_foldl_erase {α : Type} [DecidableEq α]
    (bs : List α) (m : ConnectionManager α) :
    bs.foldl (fun acc conn => acc.disconnect conn) m
      = ⟨bs.foldl List.erase m.active_connections⟩ := by
  induction bs generalizing m with
  | nil => rfl
  | cons b bs ih =>
    simp only [List.foldl_cons]
    rw [ih, ConnectionManager.disconnect_eq_erase]

theorem foldl_erase_cons_of_ne {α : Type} [DecidableEq α]
    (bs : List α) (a : α) (t : List α) (h : ∀ b ∈ bs, b ≠ a) :
    bs.foldl List.erase (a :: t) = a :: bs.foldl List.erase t := by
  induction bs generalizing t with
  | nil => rfl
  | cons b bs ih =>
    simp only [List.foldl_cons]
    rw [List.erase_cons_tail, ih]
    · exact fun x hx => h x (List.mem_cons_of_mem b hx)
    · simp [(h b (List.mem_cons_self b bs)).symm]

theorem foldl_erase_filter {α : Type} [DecidableEq α] (p : α → Bool) (l : List α) :
    (l.filter (fun c => !p c)).foldl List.erase l = l.filter p := by
  induction l with
  | nil => rfl
  | cons a t ih =>
    by_cases hp : p a = true
    · rw [List.filter_cons_of_neg (by simp [hp]), List.filter_cons_of_pos hp,
        foldl_erase_cons_of_ne _ a t, ih]
      intro b hb hba
      have : p b = false := by
        have := List.of_mem_filter hb
        simpa using this
      rw [hba] at this
      rw [this] at hp
      exact absurd hp (by simp)
    · have hp' : p a = false := by simpa using hp
      rw [List.filter_cons_of_pos (by simp [hp']), List.filter_cons_of_neg (by simp [hp'])]
      simp only [List.foldl_cons, List.erase_cons_head]
      exact ih

theorem broadcast_manager_eq_filter {α : Type} [DecidableEq α]
    (m : ConnectionManager α) (client_state : α → WebSocketState) (sendFails : α → Bool) :
    (m.broadcast client_state sendFails).manager.active_connections
      = m.active_connections.filter
          (fun c => decide (client_state c = WebSocketState.connected) && !sendFails c) := by
  unfold ConnectionManager.broadcast
  simp only
  rw [foldl_disconnect_eq_foldl_erase, broadcastLoop_disconnected]
  exact foldl_erase_filter _ m.active_connections

theorem broadcast_pass_eq_loop {α : Type} [DecidableEq α]
    (m : ConnectionManager α) (client_state : α → WebSocketState) (sendFails : α → Bool) :
    (m.broadcast client_state sendFails).pass
      = broadcastLoop client_state sendFails m.active_connections := rfl

theorem mem_delivered_mem_active {α : Type} [DecidableEq α]
    {m : ConnectionManager α} {client_state : α → WebSocketState} {sendFails : α → Bool} {c : α}
    (h : c ∈ (m.broadcast client_state sendFails).pass.delivered) :
    c ∈ m.active_connections := by
  rw [broadcast_pass_eq_loop, broadcastLoop_delivered] at h
  exact List.mem_of_mem_filter h

theorem head?_append_singleton {α : Type} (l : List α) (x : α) (h : l ≠ []) :
    (l ++ [x]).head? = l.head? := by
  cases l with
  | nil => exact absurd rfl h
  | cons a t => rfl

/-- Invariant of the interleaving model for a fixed connection c: a
connection that has received nothing is not registered, and whatever it
has received starts with the initial message. -/
def InitialFirst {α : Type} [DecidableEq α] (c : α) (w : SessionWorld α) : Prop :=
  (w.received c ≠ [] → (w.received c).head? = some "initial")
  ∧ (w.received c = [] → c ∉ w.manager.active_connections)

theorem sessionStepRun_preserves_initialFirst {α : Type} [DecidableEq α]
    (c : α) (w : SessionWorld α) (s : SessionStep α) (h : InitialFirst c w) :
    InitialFirst c (sessionStepRun w s) := by
  obtain ⟨h1, h2⟩ := h
  cases s with
  | open_session d ok =>
    cases ok with
    | true =>
      by_cases hc : c = d
      · subst hc
        refine ⟨fun _ => ?_, fun hne => ?_⟩
        · simp only [sessionStepRun]
          simp only [if_true]
          by_cases he : w.received c = []
          · rw [he]; rfl
          · rw [head?_append_singleton _ _ he]; exact h1 he
        · exfalso
          simp only [sessionStepRun] at hne
          simp only [if_true] at hne
          exact absurd hne (by simp)
      · refine ⟨?_, ?_⟩ <;> simp only [sessionStepRun, if_neg hc]
        · exact h1
        · intro he
          simp only [ConnectionManager.connect, List.mem_append, List.mem_singleton]
          push_neg
          exact ⟨h2 he, hc⟩
    | false =>
      refine ⟨h1, fun he => ?_⟩
      simp only [sessionStepRun, ConnectionManager.disconnect_eq_erase,
        ConnectionManager.connect]
      intro hmem
      have hm2 : c ∈ w.manager.active_connections ++ [d] := List.mem_of_mem_erase hmem
      by_cases hc : c = d
      · subst hc
        have hco : c ∉ w.manager.active_connections := h2 he
        rw [List.erase_append_right _ hco, List.erase_cons_head, List.append_nil] at hmem
        exact hco hmem
      · rcases List.mem_append.mp hm2 with hm | hm
        · exact h2 he hm
        · exact hc (List.mem_singleton.mp hm)
  | tick client_state sendFails =>
    refine ⟨fun hne => ?_, fun he => ?_⟩
    · simp only [sessionStepRun]
      by_cases hd : c ∈ (w.manager.broadcast client_state sendFails).pass.delivered
      · rw [if_pos hd]
        have hmem : c ∈ w.manager.active_connections := mem_delivered_mem_active hd
        have hno : w.received c ≠ [] := by
          intro he; exact h2 he hmem
        rw [head?_append_singleton _ _ hno]
        exact h1 hno
      · rw [if_neg hd]
        simp only [sessionStepRun, if_neg hd] at hne
        exact h1 hne
    · simp only [sessionStepRun] at he ⊢
      by_cases hd : c ∈ (w.manager.broadcast client_state sendFails).pass.delivered
      · rw [if_pos hd] at he
        exact absurd he (by simp)
      · rw [if_neg hd] at he
        rw [broadcast_manager_eq_filter]
        intro hmem
        exact h2 he (List.mem_of_mem_filter hmem)
  | close_session d =>
    refine ⟨h1, fun he => ?_⟩
    simp only [sessionStepRun, ConnectionManager.disconnect_eq_erase]
    intro hmem
    exact h2 he (List.mem_of_mem_erase hmem)

theorem initialFirst_foldl {α : Type} [DecidableEq α]
    (c : α) (steps : List (SessionStep α)) (w : SessionWorld α) (h : InitialFirst c w) :
    InitialFirst c (steps.foldl sessionStepRun w) := by
  induction steps generalizing w with
  | nil => exact h
  | cons s rest ih =>
    exact ih (sessionStepRun w s) (sessionStepRun_preserves_initialFirst c w s h)

theorem initialFirst_sessionRun {α : Type} [DecidableEq α]
    (c : α) (steps : List (SessionStep α)) :
    InitialFirst c (sessionRun steps) :=
  initialFirst_foldl c steps ⟨⟨[]⟩, fun _ => []⟩ ⟨fun h => absurd rfl h, fun _ => by simp⟩



/-!
Claim theorems.
-/

/-- C1 counterexample: the claim fails on the code.  connect appends
unconditionally (server.py line 39), so adding connection 0 twice to
the empty registry leaves Count 2, not the Count 1 that adding it once
leaves. -/
theorem connect_twice_counterexample :
    ¬ ((((⟨[]⟩ : ConnectionManager Nat).connect 0).connect 0).count
        = ((⟨[]⟩ : ConnectionManager Nat).connect 0).count) := by decide

/-- C1 amended: the registration step of ConnectionManager.connect is
not idempotent.  Adding the same connection twice appends two
occurrences: the registry list gains the connection twice at the end
and Count grows by two, one more than adding it once. -/
theorem connect_twice_appends_duplicate {α : Type} (m : ConnectionManager α) (c : α) :
    ((m.connect c).connect c).active_connections = m.active_connections ++ [c, c]
    ∧ ((m.connect c).connect c).count = m.count + 2 := by
  refine ⟨?_, ?_⟩
  · simp [ConnectionManager.connect]
  · simp [ConnectionManager.connect, ConnectionManager.count]

/-- C2: within one broadcast pass over a registry containing A and B,
if the send to A raises and the send to B succeeds, B is still
delivered the message of that tick and A is no longer in the registry
when the pass completes. -/
theorem broadcast_failure_isolated {α : Type} [DecidableEq α]
    (m : ConnectionManager α) (client_state : α → WebSocketState) (sendFails : α → Bool)
    (A B : α) (hA : A ∈ m.active_connections) (hB : B ∈ m.active_connections)
    (hAc : client_state A = WebSocketState.connected) (hAf : sendFails A = true)
    (hBc : client_state B = WebSocketState.connected) (hBf : sendFails B = false) :
    B ∈ (m.broadcast client_state sendFails).pass.delivered
    ∧ A ∉ (m.broadcast client_state sendFails).manager.active_connections := by
  constructor
  · rw [broadcast_pass_eq_loop, broadcastLoop_delivered]
    exact List.mem_filter.mpr ⟨hB, by simp [hBc, hBf]⟩
  · rw [broadcast_manager_eq_filter]
    intro hmem
    have h2 := (List.mem_filter.mp hmem).2
    simp [hAc, hAf] at h2

/-- C2 witness: registry [0, 1], both connected, send to 0 raises and
send to 1 succeeds: 1 is delivered, 0 is removed. -/
theorem broadcast_failure_isolated_witness :
    1 ∈ (ConnectionManager.broadcast (⟨[0, 1]⟩ : ConnectionManager Nat)
          (fun _ => WebSocketState.connected) (fun c => c = 0)).pass.delivered
    ∧ 0 ∉ (ConnectionManager.broadcast (⟨[0, 1]⟩ : ConnectionManager Nat)
          (fun _ => WebSocketState.connected) (fun c => c = 0)).manager.active_connections :=
  broadcast_failure_isolated ⟨[0, 1]⟩ (fun _ => WebSocketState.connected)
    (fun c => c = 0) 0 1 (by decide) (by decide) rfl (by decide) rfl (by decide)

/-- C3: collection failures never escape the collection functions.
When the try body of get_system_info raises, the returned dict carries
the error field and the current timestamp; when the try body of
get_bot_info raises with a bound bot, the returned dict has status
error.  Both are returned as plain values. -/
theorem collection_failure_recovered {β : Type} (now e1 e2 : String) (bot : β) :
    (get_system_info now (Except.error e1)).lookup "error"
        = some (.str "Internal error while collecting system information")
    ∧ (get_system_info now (Except.error e1)).lookup "timestamp" = some (.str now)
    ∧ (get_bot_info (some bot) (fun _ => Except.error e2)).lookup "status"
        = some (.str "error") :=
  ⟨rfl, rfl, rfl⟩

/-- C7: with no bound application instance, get_bot_info returns the
not_connected dict as a normal value: its status field reads
not_connected, whatever the try body would have done. -/
theorem bot_info_not_connected {β : Type} (body : β → Except String JVal) :
    get_bot_info (none : Option β) body
      = JVal.obj [("status", .str "not_connected"),
                  ("message", .str "Bot instance not initialized")]
    ∧ (get_bot_info (none : Option β) body).lookup "status"
        = some (.str "not_connected") :=
  ⟨rfl, rfl⟩

/-- C4: a scheduler tick with an empty registry makes no collection
calls and sends nothing: broadcast_stats only builds the stats dict
inside the branch guarded by the non-empty check of line 252. -/
theorem tick_empty_registry_skips_collection {α β : Type} [DecidableEq α]
    (client_state : α → WebSocketState) (sendFails : α → Bool)
    (now : String) (sysBody : Except String JVal)
    (bot_instance : Option β) (botBody : β → Except String JVal)
    (m : ConnectionManager α) (h : m.active_connections = []) :
    (broadcast_stats_tick client_state sendFails now sysBody bot_instance botBody
        m).system_info_calls = 0
    ∧ (broadcast_stats_tick client_state sendFails now sysBody bot_instance botBody
        m).bot_info_calls = 0
    ∧ (broadcast_stats_tick client_state sendFails now sysBody bot_instance botBody
        m).sent = []
    ∧ (broadcast_stats_tick client_state sendFails now sysBody bot_instance botBody
        m).manager = m := by
  simp [broadcast_stats_tick, h]

/-- C4 witness: the empty registry over Nat connections performs zero
collection calls on a tick. -/
theorem tick_empty_registry_skips_collection_witness :
    ((⟨[]⟩ : ConnectionManager Nat).active_connections = []) ∧
    ((broadcast_stats_tick (fun _ => WebSocketState.connected) (fun _ => false) "t"
        (Except.ok (JVal.num 0)) (none : Option Unit) (fun _ => Except.ok (JVal.num 0))
        (⟨[]⟩ : ConnectionManager Nat)).system_info_calls = 0
    ∧ (broadcast_stats_tick (fun _ => WebSocketState.connected) (fun _ => false) "t"
        (Except.ok (JVal.num 0)) (none : Option Unit) (fun _ => Except.ok (JVal.num 0))
        (⟨[]⟩ : ConnectionManager Nat)).bot_info_calls = 0
    ∧ (broadcast_stats_tick (fun _ => WebSocketState.connected) (fun _ => false) "t"
        (Except.ok (JVal.num 0)) (none : Option Unit) (fun _ => Except.ok (JVal.num 0))
        (⟨[]⟩ : ConnectionManager Nat)).sent = []
    ∧ (broadcast_stats_tick (fun _ => WebSocketState.connected) (fun _ => false) "t"
        (Except.ok (JVal.num 0)) (none : Option Unit) (fun _ => Except.ok (JVal.num 0))
        (⟨[]⟩ : ConnectionManager Nat)).manager = ⟨[]⟩) :=
  ⟨rfl, tick_empty_registry_skips_collection _ _ _ _ _ _ _ rfl⟩

/-- C5: a scheduler tick with a non-empty registry runs each collection
function exactly once and every recipient of the tick is sent that one
stats value, built before the fan-out from the single collection. -/
theorem tick_nonempty_single_collection {α β : Type} [DecidableEq α]
    (client_state : α → WebSocketState) (sendFails : α → Bool)
    (now : String) (sysBody : Except String JVal)
    (bot_instance : Option β) (botBody : β → Except String JVal)
    (m : ConnectionManager α) (h : m.active_connections ≠ []) :
    (broadcast_stats_tick client_state sendFails now sysBody bot_instance botBody
        m).system_info_calls = 1
    ∧ (broadcast_stats_tick client_state sendFails now sysBody bot_instance botBody
        m).bot_info_calls = 1
    ∧ ∀ p ∈ (broadcast_stats_tick client_state sendFails now sysBody bot_instance botBody
        m).sent,
        p.2 = ⟨"update", get_system_info now sysBody, get_bot_info bot_instance botBody⟩ := by
  refine ⟨?_, ?_, ?_⟩ <;> simp only [broadcast_stats_tick, if_neg h]
  · intro p hp
    simp only [List.mem_map] at hp
    obtain ⟨c, _, hc⟩ := hp
    exact hc ▸ rfl

/-- C5 witness: registry [7], everything healthy: one collection pass,
and the single message sent is the update stats value. -/
theorem tick_nonempty_single_collection_witness :
    ((broadcast_stats_tick (fun _ => WebSocketState.connected) (fun _ => false) "t"
        (Except.ok (JVal.num 3)) (none : Option Unit) (fun _ => Except.ok (JVal.num 4))
        (⟨[7]⟩ : ConnectionManager Nat)).system_info_calls = 1
    ∧ (broadcast_stats_tick (fun _ => WebSocketState.connected) (fun _ => false) "t"
        (Except.ok (JVal.num 3)) (none : Option Unit) (fun _ => Except.ok (JVal.num 4))
        (⟨[7]⟩ : ConnectionManager Nat)).bot_info_calls = 1
    ∧ ∀ p ∈ (broadcast_stats_tick (fun _ => WebSocketState.connected) (fun _ => false) "t"
        (Except.ok (JVal.num 3)) (none : Option Unit) (fun _ => Except.ok (JVal.num 4))
        (⟨[7]⟩ : ConnectionManager Nat)).sent,
        p.2 = ⟨"update", get_system_info "t" (Except.ok (JVal.num 3)),
               get_bot_info (none : Option Unit) (fun _ => Except.ok (JVal.num 4))⟩) :=
  tick_nonempty_single_collection _ _ _ _ _ _ _ (by decide)

/-- C8 counterexample: the claim fails on the code.  On the registry
list [0, 0], which double-add can create, the first disconnect removes
one occurrence of 0 and the second removes the other, so two Removes do
not leave the state one Remove leaves. -/
theorem disconnect_twice_counterexample :
    ¬ (((⟨[0, 0]⟩ : ConnectionManager Nat).disconnect 0).disconnect 0
        = (⟨[0, 0]⟩ : ConnectionManager Nat).disconnect 0) := by decide

/-- C8 amended: disconnect of an absent connection neither raises nor
changes the registry, and disconnect twice equals disconnect once on
every registry in which the connection occurs at most once (in
particular on every duplicate-free registry); only duplicate entries,
which connect can create, break the idempotence. -/
theorem disconnect_absent_noop_and_idempotent {α : Type} [DecidableEq α]
    (m : ConnectionManager α) (c : α) (h : m.active_connections.count c ≤ 1) :
    ((m.disconnect c).disconnect c = m.disconnect c)
    ∧ (c ∉ m.active_connections → m.disconnect c = m) := by
  have habs : ∀ (m2 : ConnectionManager α), c ∉ m2.active_connections → m2.disconnect c = m2 := by
    intro m2 hm2
    simp [ConnectionManager.disconnect, hm2]
  refine ⟨?_, habs m⟩
  by_cases hm : c ∈ m.active_connections
  · apply habs
    rw [ConnectionManager.disconnect_eq_erase]
    simp only
    intro hmem
    have h1 : (m.active_connections.erase c).count c = m.active_connections.count c - 1 :=
      List.count_erase_self c m.active_connections
    have h2 : 0 < (m.active_connections.erase c).count c := List.count_pos_iff.mpr hmem
    omega
  · rw [habs m hm]
    exact habs m hm

/-- C8 witness: on the duplicate-free registry [0, 1], disconnect of 0
twice equals disconnect once, and disconnect of an absent connection is
a no-op. -/
theorem disconnect_absent_noop_and_idempotent_witness :
    (⟨[0, 1]⟩ : ConnectionManager Nat).active_connections.count 0 ≤ 1
    ∧ ((((⟨[0, 1]⟩ : ConnectionManager Nat).disconnect 0).disconnect 0
          = (⟨[0, 1]⟩ : ConnectionManager Nat).disconnect 0)
       ∧ (0 ∉ (⟨[0, 1]⟩ : ConnectionManager Nat).active_connections
          → (⟨[0, 1]⟩ : ConnectionManager Nat).disconnect 0 = ⟨[0, 1]⟩)) :=
  ⟨by decide, disconnect_absent_noop_and_idempotent ⟨[0, 1]⟩ 0 (by decide)⟩

/-- C9: a registered connection whose client_state is not CONNECTED
when the broadcast loop visits it gets no send attempt, lands in the
disconnected list exactly as a failed send would, and is gone from the
registry at the end of the pass. -/
theorem broadcast_skips_non_connected {α : Type} [DecidableEq α]
    (m : ConnectionManager α) (client_state : α → WebSocketState) (sendFails : α → Bool)
    (c : α) (hmem : c ∈ m.active_connections)
    (hstate : client_state c ≠ WebSocketState.connected) :
    c ∉ (m.broadcast client_state sendFails).pass.attempted
    ∧ c ∈ (m.broadcast client_state sendFails).pass.disconnected
    ∧ c ∉ (m.broadcast client_state sendFails).manager.active_connections := by
  refine ⟨?_, ?_, ?_⟩
  · rw [broadcast_pass_eq_loop, broadcastLoop_attempted]
    intro hc
    have h2 := (List.mem_filter.mp hc).2
    simp [hstate] at h2
  · rw [broadcast_pass_eq_loop, broadcastLoop_disconnected]
    exact List.mem_filter.mpr ⟨hmem, by simp [hstate]⟩
  · rw [broadcast_manager_eq_filter]
    intro hc
    have h2 := (List.mem_filter.mp hc).2
    simp [hstate] at h2

/-- C9 witness: registry [5] with connection 5 in the disconnected
transport state: no send attempt on 5 and 5 is removed by the pass. -/
theorem broadcast_skips_non_connected_witness :
    5 ∉ (ConnectionManager.broadcast (⟨[5]⟩ : ConnectionManager Nat)
          (fun _ => WebSocketState.disconnected) (fun _ => false)).pass.attempted
    ∧ 5 ∈ (ConnectionManager.broadcast (⟨[5]⟩ : ConnectionManager Nat)
          (fun _ => WebSocketState.disconnected) (fun _ => false)).pass.disconnected
    ∧ 5 ∉ (ConnectionManager.broadcast (⟨[5]⟩ : ConnectionManager Nat)
          (fun _ => WebSocketState.disconnected) (fun _ => false)).manager.active_connections :=
  broadcast_skips_non_connected ⟨[5]⟩ (fun _ => WebSocketState.disconnected)
    (fun _ => false) 5 (by decide) (by decide)

/-- C10: a broadcast pass never adds to the registry and leaves the
survivors in place: the registry afterwards is exactly the prior list
filtered to the connections that were CONNECTED and whose send
succeeded, hence a sublist of the prior membership in the original
relative order. -/
theorem broadcast_registry_frame {α : Type} [DecidableEq α]
    (m : ConnectionManager α) (client_state : α → WebSocketState) (sendFails : α → Bool) :
    (m.broadcast client_state sendFails).manager.active_connections
      = m.active_connections.filter
          (fun c => decide (client_state c = WebSocketState.connected) && !sendFails c)
    ∧ List.Sublist
        (m.broadcast client_state sendFails).manager.active_connections
        m.active_connections := by
  refine ⟨broadcast_manager_eq_filter m client_state sendFails, ?_⟩
  rw [broadcast_manager_eq_filter]
  exact List.filter_sublist _

/-- C6: in every interleaving of session openings, scheduler ticks and
session closings from server start, a connection that has received any
message at all received an initial-tagged message first: no update
message precedes it, even when ticks run between registration steps.
The atomicity of registration plus initial send is justified at the
model: websocket_endpoint has no await point between the registry
append and the initiation of the initial send_json. -/
theorem session_initial_before_update {α : Type} [DecidableEq α]
    (c : α) (steps : List (SessionStep α))
    (h : (sessionRun steps).received c ≠ []) :
    ((sessionRun steps).received c).head? = some "initial" :=
  (initialFirst_sessionRun c steps).1 h

/-- C6 witness: a session opening followed by a tick: connection 0 has
received messages and the first is the initial one. -/
theorem session_initial_before_update_witness :
    (sessionRun [SessionStep.open_session 0 true,
                 SessionStep.tick (fun _ => WebSocketState.connected) (fun _ => false)]
      : SessionWorld Nat).received 0 ≠ []
    ∧ ((sessionRun [SessionStep.open_session 0 true,
                    SessionStep.tick (fun _ => WebSocketState.connected) (fun _ => false)]
        : SessionWorld Nat).received 0).head? = some "initial" :=
  ⟨by decide, session_initial_before_update 0 _ (by decide)⟩
